import Mathlib

/-!
Verification of the Linearized ADMM solver (`scico/ladmm.py`).

The solver state and its operations are embedded shallowly: arrays become
elements of rational vector spaces `X` (primal side) and `Z` (range of the
operator `C`), the pluggable `Functional` and `LinearOperator` collaborators
become records of functions, Python exceptions become an explicit error type,
and the mutation of the solver object becomes explicit state passing.
Wall-clock time (the `Timer`) is outside the embedding; the elapsed-time
entry of a diagnostics row is modelled as `0`.
-/

namespace LADMM

/-- Python exceptions raised (or potentially raised) by the solver code. -/
inductive PyErr where
  /-- Python `ValueError`, raised by `objective` (ladmm.py line 212). -/
  | valueError
  /-- Python `AttributeError`, raised by attribute access on an object
  lacking the attribute (e.g. `None.prox`, or `obj.i` on a solver). -/
  | attributeError
deriving DecidableEq

/-- Embedding of the `Functional` collaborator contract consumed by the
solver: an evaluation map, a proximal map `prox(v, step, v0)` (the `v0`
argument is the warm start), and the `has_eval` capability flag read by the
constructor's diagnostics-schema selection. -/
structure Functional (V : Type) where
  has_eval : Bool
  eval : V → ℚ
  prox : V → ℚ → V → V

/-- Embedding of the `LinearOperator` collaborator contract: forward map
`app` (Python `C(x)`) and adjoint `adj` (Python `C.conj().T(y)`, equally
`C.adj(y)`). -/
structure LinOp (X Z : Type) where
  app : X → Z
  adj : Z → X

/-- The diagnostics value-extraction choice fixed at construction
(ladmm.py lines 136-176): a caller-supplied insert function, or one of the
two default closures selected on `g.has_eval`. -/
inductive ItstatChoice (X Z : Type) where
  /-- Caller-supplied `insertfunc` from the `itstat` argument. -/
  | given (fn : ℚ → Except PyErr (List ℚ))
  /-- Default closure when `g.has_eval` holds (ladmm.py lines 149-156). -/
  | defaultEval
  /-- Default closure when `g.has_eval` fails (ladmm.py lines 167-173). -/
  | defaultNoEval

/-- The immutable part of a `LinearizedADMM` object: the collaborators
`f` (optional, `f: Functional` in the signature but guarded by `if self.f:`
in `objective`), `g`, `C`, the scalars `mu`, `nu`, the iteration budget
`maxiter`, and the diagnostics choice fixed at construction. -/
structure Problem (X Z : Type) where
  f : Option (Functional X)
  g : Functional Z
  C : LinOp X Z
  mu : ℚ
  nu : ℚ
  maxiter : ℕ
  itstatChoice : ItstatChoice X Z

/-- The mutable part of a `LinearizedADMM` object: the iterates `x`, `z`,
`z_old`, `u`, the iteration counter `itnum`, and the length of the
`itstat_object` history (`inserts`, one per `insert` call in `solve`). -/
structure State (X Z : Type) where
  x : X
  z : Z
  z_old : Z
  u : Z
  itnum : ℕ
  inserts : ℕ
deriving DecidableEq

section Model

variable {X Z : Type} [AddCommGroup X] [Module ℚ X] [AddCommGroup Z] [Module ℚ Z]

/-- Embedding of `LinearizedADMM.z_init` (ladmm.py lines 257-272):
`z = C(x0)`, `z_old = z.copy()` (a value copy), returned as a pair. -/
def z_init (C : LinOp X Z) (x0 : X) : Z × Z :=
  let z := C.app x0
  let z_old := z
  (z, z_old)

/-- Embedding of `LinearizedADMM.u_init` (ladmm.py lines 274-287):
`u = snp.zeros(C.output_shape)`, the additive identity of `Z`.
The `x0` argument is accepted and unused, as in the source. -/
def u_init (_C : LinOp X Z) (_x0 : X) : Z := 0

/-- Embedding of the `itstat` constructor argument selection
(ladmm.py lines 136-176): a supplied `itstat` tuple wins; otherwise the
default closure is chosen on `g.has_eval`. -/
def selectItstat (g : Functional Z) (itstat : Option (ℚ → Except PyErr (List ℚ))) :
    ItstatChoice X Z :=
  match itstat with
  | some fn => .given fn
  | none => if g.has_eval then .defaultEval else .defaultNoEval

/-- Embedding of `LinearizedADMM.__init__` (ladmm.py lines 92-184). The
parameters are stored as given — the constructor contains no validation and
no raise statement. `x0 = None` defaults to `snp.zeros(C.input_shape)`, the
additive identity of `X`; then `z, z_old = z_init(x)` and `u = u_init(x)`. -/
def init (f : Option (Functional X)) (g : Functional Z) (C : LinOp X Z)
    (mu nu : ℚ) (x0 : Option X) (maxiter : ℕ)
    (itstat : Option (ℚ → Except PyErr (List ℚ))) : Problem X Z × State X Z :=
  let P : Problem X Z :=
    { f := f, g := g, C := C, mu := mu, nu := nu, maxiter := maxiter,
      itstatChoice := selectItstat g itstat }
  let x := x0.getD 0
  let zz := z_init C x
  let u := u_init C x
  (P, { x := x, z := zz.1, z_old := zz.2, u := u, itnum := 0, inserts := 0 })

/-- Contribution of `f` to the objective (ladmm.py lines 216-218): added
only when `self.f` is truthy, so an absent `f` contributes `0`. -/
def fContrib (P : Problem X Z) (x : X) : ℚ :=
  match P.f with
  | some f => f.eval x
  | none => 0

/-- Embedding of `LinearizedADMM.objective` (ladmm.py lines 186-220):
raise `ValueError` when exactly one of `x`, `z` is supplied; default both to
the current iterates; return `f(x) + g(z)` with `f` contributing `0` when
absent. -/
def objectiveE (P : Problem X Z) (s : State X Z) (x? : Option X) (z? : Option Z) :
    Except PyErr ℚ :=
  if x?.isNone != z?.isNone then .error .valueError
  else
    let x := x?.getD s.x
    let z := z?.getD s.z
    .ok (fContrib P x + P.g.eval z)

/-- Embedding of `LinearizedADMM.norm_primal_residual` (ladmm.py lines
222-242). `nrmZ` stands for the ambient Euclidean norm (the module-level
`norm` import). The source binds the defaulted argument to the local `x`
(line 240) but then computes `norm(self.C(self.x) - self.z)` (line 242),
ignoring `x`; the embedding reproduces this. -/
def norm_primal_residual (nrmZ : Z → ℚ) (P : Problem X Z) (s : State X Z)
    (x? : Option X) : ℚ :=
  let _x := x?.getD s.x
  nrmZ (P.C.app s.x - s.z)

/-- Embedding of `LinearizedADMM.norm_dual_residual` (ladmm.py lines
244-255): `norm(C.adj(z - z_old))`, with `nrmX` the ambient Euclidean norm
on the primal side. -/
def norm_dual_residual (nrmX : X → ℚ) (P : Problem X Z) (s : State X Z) : ℚ :=
  nrmX (P.C.adj (s.z - s.z_old))

/-- The success branch of `LinearizedADMM.step` (ladmm.py lines 311-317),
with `f0` the functional held in `self.f`:
`proxarg = x - (mu/nu) * C.conj().T(C(x) - z + u)`;
`x = f.prox(proxarg, mu, v0=x)`; `z_old = z.copy()`; `Cx = C(x)`;
`z = g.prox(Cx + u, nu, v0=z)`; `u = u + Cx - z`.
Only `x`, `z`, `z_old`, `u` change. -/
def stepOk (P : Problem X Z) (f0 : Functional X) (s : State X Z) : State X Z :=
  let proxarg := s.x - (P.mu / P.nu) • P.C.adj (P.C.app s.x - s.z + s.u)
  let x := f0.prox proxarg P.mu s.x
  let z_old := s.z
  let Cx := P.C.app x
  let z := P.g.prox (Cx + s.u) P.nu s.z
  let u := s.u + Cx - z
  { s with x := x, z := z, z_old := z_old, u := u }

/-- Embedding of `LinearizedADMM.step` (ladmm.py lines 289-317). When
`self.f` is `None`, the attribute access `self.f.prox` on line 312 raises
`AttributeError` before any field of the state has been reassigned. -/
def stepE (P : Problem X Z) (s : State X Z) : Except PyErr (State X Z) :=
  match P.f with
  | none => .error .attributeError
  | some f0 => .ok (stepOk P f0 s)

/-- Attribute names bound on a `LinearizedADMM` instance by `__init__`
(ladmm.py lines 126-184), in assignment order. -/
def solverAttrNames : List String :=
  ["f", "g", "C", "mu", "nu", "itnum", "maxiter", "timer", "verbose",
   "itstat_object", "itstat_insert_func", "x", "z", "z_old", "u"]

/-- Numeric attribute lookup on a solver instance, modelling Python
`getattr`: only the scalar-valued attributes can appear in a diagnostics
row. The name `"i"` is bound by no solver instance, so it maps to `none`. -/
def lookupAttr (P : Problem X Z) (s : State X Z) (a : String) : Option ℚ :=
  if a = "itnum" then some (s.itnum : ℚ)
  else if a = "mu" then some P.mu
  else if a = "nu" then some P.nu
  else if a = "maxiter" then some (P.maxiter : ℚ)
  else none

/-- Default diagnostics closure when `g.has_eval` holds (ladmm.py lines
149-156): the row `(itnum, elapsed, objective(), primal, dual)`; the
elapsed-time entry is modelled as `0`. -/
def itstatFuncEval (nrmX : X → ℚ) (nrmZ : Z → ℚ) (P : Problem X Z) (s : State X Z) :
    Except PyErr (List ℚ) :=
  match objectiveE P s none none with
  | .error e => .error e
  | .ok v =>
      .ok [(s.itnum : ℚ), 0, v, norm_primal_residual nrmZ P s none,
           norm_dual_residual nrmX P s]

/-- Default diagnostics closure when `g.has_eval` fails (ladmm.py lines
167-173): the row `(obj.i, elapsed, primal, dual)`. The first entry reads
the attribute `i` of the solver, which no instance possesses, so the lookup
fails with `AttributeError`. -/
def itstatFuncNoEval (nrmX : X → ℚ) (nrmZ : Z → ℚ) (P : Problem X Z) (s : State X Z) :
    Except PyErr (List ℚ) :=
  match lookupAttr P s "i" with
  | none => .error .attributeError
  | some iv =>
      .ok [iv, 0, norm_primal_residual nrmZ P s none, norm_dual_residual nrmX P s]

/-- Applying `self.itstat_insert_func` to the solver (ladmm.py line 339).
A caller-supplied function receives the solver; in the embedding it is fed
the iteration counter (custom functions in the claims use none of the rest). -/
def itstatApply (nrmX : X → ℚ) (nrmZ : Z → ℚ) (P : Problem X Z) (s : State X Z) :
    Except PyErr (List ℚ) :=
  match P.itstatChoice with
  | .given fn => fn (s.itnum : ℚ)
  | .defaultEval => itstatFuncEval nrmX nrmZ P s
  | .defaultNoEval => itstatFuncNoEval nrmX nrmZ P s

/-- The loop of `LinearizedADMM.solve` (ladmm.py lines 337-339):
`for self.itnum in range(i, i + m): step(); itstat_object.insert(...)`.
The pair holds the state as left by the loop together with the exception,
if any, that aborted it: an aborted iteration keeps the mutations already
performed (`itnum` is assigned at the loop head; `step`'s mutations persist
when the diagnostics insertion fails). -/
def loopE (nrmX : X → ℚ) (nrmZ : Z → ℚ) (P : Problem X Z) :
    ℕ → ℕ → State X Z → State X Z × Option PyErr
  | _, 0, s => (s, none)
  | i, m + 1, s =>
    match stepE P { s with itnum := i } with
    | .error e => ({ s with itnum := i }, some e)
    | .ok s1 =>
      match itstatApply nrmX nrmZ P s1 with
      | .error e => (s1, some e)
      | .ok _ => loopE nrmX nrmZ P (i + 1) m { s1 with inserts := s1.inserts + 1 }

/-- Embedding of `LinearizedADMM.solve` (ladmm.py lines 319-346) without
the optional callback: run the loop for `maxiter` iterations from the
current counter, then `self.itnum += 1`. On an exception the partially
mutated state is kept and the error recorded. -/
def solveE (nrmX : X → ℚ) (nrmZ : Z → ℚ) (P : Problem X Z) (s : State X Z) :
    State X Z × Option PyErr :=
  match loopE nrmX nrmZ P s.itnum P.maxiter s with
  | (sf, none) => ({ sf with itnum := sf.itnum + 1 }, none)
  | (sf, some e) => (sf, some e)

/-- The value returned by `solve` (ladmm.py line 346): the final `self.x`,
or nothing when an exception propagates out of the loop. -/
def solveResult (nrmX : X → ℚ) (nrmZ : Z → ℚ) (P : Problem X Z) (s : State X Z) :
    Option X :=
  match solveE nrmX nrmZ P s with
  | (sf, none) => some sf.x
  | (_, some _) => none

end Model

/-! Concrete collaborator instances used for witnesses and counterexamples.
The ambient spaces are `ℚ` (a one-dimensional array, whose Euclidean norm is
the absolute value) and `ℚ × ℚ` (a two-element array). -/

/-- Identity linear operator on the one-dimensional space. -/
def idOpQ : LinOp ℚ ℚ := { app := fun v => v, adj := fun v => v }

/-- Euclidean norm of a one-dimensional array: the absolute value,
written as a case split so that it evaluates by kernel reduction. -/
def absNorm (v : ℚ) : ℚ := if v < 0 then -v else v

/-- Zero functional on `ℚ`: evaluates to `0`, prox is the identity map. -/
def zeroFnQ : Functional ℚ :=
  { has_eval := true, eval := fun _ => 0, prox := fun v _ _ => v }

/-- A functional whose `has_eval` capability flag is false (an
implicit/black-box prox with no closed-form value); its prox is the
identity and its (never consulted) evaluation map is `0`. -/
def noEvalFnQ : Functional ℚ :=
  { has_eval := false, eval := fun _ => 0, prox := fun v _ _ => v }

/-- A concrete solver configuration with `f` present and a caller-supplied
diagnostics insert function that always succeeds with an empty row. -/
def PW : Problem ℚ ℚ :=
  { f := some zeroFnQ, g := zeroFnQ, C := idOpQ, mu := 1 / 2, nu := 1,
    maxiter := 2, itstatChoice := .given (fun _ => .ok []) }

/-- A concrete solver state for `PW`. -/
def sW : State ℚ ℚ :=
  { x := 3, z := 1, z_old := 0, u := 2, itnum := 5, inserts := 4 }

/-- A concrete solver configuration with the default evaluable diagnostics. -/
def P2 : Problem ℚ ℚ :=
  { f := some zeroFnQ, g := zeroFnQ, C := idOpQ, mu := 1, nu := 1,
    maxiter := 100, itstatChoice := .defaultEval }

/-- A solver state with `C(x) = z`, so the true primal residual at the
current iterate is `0` while at the point `1` it is `1`. -/
def s2 : State ℚ ℚ :=
  { x := 0, z := 0, z_old := 0, u := 0, itnum := 0, inserts := 0 }

/-- A concrete solver configuration with `f` absent (`None`). -/
def P5 : Problem ℚ ℚ :=
  { f := none, g := zeroFnQ, C := idOpQ, mu := 1, nu := 1,
    maxiter := 100, itstatChoice := .defaultEval }

/-- A concrete solver whose `g` lacks `has_eval` and whose diagnostics
choice is the one `__init__` selects for `itstat = None`. -/
def P10 : Problem ℚ ℚ :=
  { f := some zeroFnQ, g := noEvalFnQ, C := idOpQ, mu := 1, nu := 1,
    maxiter := 100, itstatChoice := selectItstat noEvalFnQ none }

/-- Identity linear operator on the two-dimensional space (the 2×2 identity
matrix of the end-to-end scenario). -/
def idOp2 : LinOp (ℚ × ℚ) (ℚ × ℚ) := { app := fun v => v, adj := fun v => v }

/-- Zero functional on `ℚ × ℚ`: evaluates to `0`, prox is the identity. -/
def zeroFn2 : Functional (ℚ × ℚ) :=
  { has_eval := true, eval := fun _ => 0, prox := fun v _ _ => v }

/-- Indicator of the non-negative orthant of `ℚ × ℚ`: the prox is the
elementwise clamp at `0`. The indicator's value is `0` on the orthant and
`+∞` outside, which has no rational embedding; the evaluation map is never
consulted in the scenario and the `has_eval` flag is set accordingly. -/
def nonnegInd2 : Functional (ℚ × ℚ) :=
  { has_eval := false, eval := fun _ => 0,
    prox := fun v _ _ => (max v.1 0, max v.2 0) }

/-- The end-to-end scenario solver: `C` the 2×2 identity, `f` the zero
functional, `g` the non-negative-orthant indicator, `mu = 0.5`, `nu = 1`,
`x0 = [-1, 2]`, constructed through `init`. -/
def scenario9 : Problem (ℚ × ℚ) (ℚ × ℚ) × State (ℚ × ℚ) (ℚ × ℚ) :=
  init (some zeroFn2) nonnegInd2 idOp2 (1 / 2) 1 (some (-1, 2)) 1 none

/-- The immutable part of the end-to-end scenario solver. -/
def P9 : Problem (ℚ × ℚ) (ℚ × ℚ) := scenario9.1

/-- The initial state of the end-to-end scenario solver. -/
def s9 : State (ℚ × ℚ) (ℚ × ℚ) := scenario9.2

section Lemmas

variable {X Z : Type} [AddCommGroup X] [Module ℚ X] [AddCommGroup Z] [Module ℚ Z]
variable (nrmX : X → ℚ) (nrmZ : Z → ℚ)

lemma stepE_ok (P : Problem X Z) (f0 : Functional X) (s : State X Z)
    (hf : P.f = some f0) : stepE P s = .ok (stepOk P f0 s) := by
  unfold stepE; rw [hf]

lemma stepOk_set_itnum (P : Problem X Z) (f0 : Functional X) (s : State X Z) (i : ℕ) :
    stepOk P f0 { s with itnum := i } = { stepOk P f0 s with itnum := i } := rfl

lemma stepOk_itnum (P : Problem X Z) (f0 : Functional X) (s : State X Z) :
    (stepOk P f0 s).itnum = s.itnum := rfl

lemma stepOk_inserts (P : Problem X Z) (f0 : Functional X) (s : State X Z) :
    (stepOk P f0 s).inserts = s.inserts := rfl

lemma stepOk_set (P : Problem X Z) (f0 : Functional X) (s : State X Z) (i n : ℕ) :
    stepOk P f0 { s with itnum := i, inserts := n }
      = { stepOk P f0 s with itnum := i, inserts := n } := rfl

lemma stepOk_iterate_set (P : Problem X Z) (f0 : Functional X) (m : ℕ) :
    ∀ (s : State X Z) (i n : ℕ),
      (stepOk P f0)^[m] { s with itnum := i, inserts := n }
        = { (stepOk P f0)^[m] s with itnum := i, inserts := n } := by
  induction m with
  | zero => intro s i n; rfl
  | succ m ih =>
      intro s i n
      rw [Function.iterate_succ_apply, Function.iterate_succ_apply, stepOk_set, ih]

lemma loopE_succ (P : Problem X Z) (i m : ℕ) (s : State X Z) :
    loopE nrmX nrmZ P i (m + 1) s
      = match stepE P { s with itnum := i } with
        | .error e => ({ s with itnum := i }, some e)
        | .ok s1 =>
          match itstatApply nrmX nrmZ P s1 with
          | .error e => (s1, some e)
          | .ok _ =>
              loopE nrmX nrmZ P (i + 1) m { s1 with inserts := s1.inserts + 1 } := by
  rw [loopE]

lemma loopE_ok (P : Problem X Z) (f0 : Functional X) (hf : P.f = some f0)
    (hins : ∀ t, ∃ r, itstatApply nrmX nrmZ P t = .ok r) (m : ℕ) :
    ∀ (i : ℕ) (s : State X Z),
      loopE nrmX nrmZ P i (m + 1) s
        = ({ (stepOk P f0)^[m + 1] s with
              itnum := i + m, inserts := s.inserts + (m + 1) }, none) := by
  induction m with
  | zero =>
      intro i s
      rw [loopE_succ, stepE_ok P f0 _ hf]
      obtain ⟨r, hr⟩ := hins (stepOk P f0 { s with itnum := i })
      simp only [hr]
      simp only [loopE, stepOk_set_itnum, stepOk_inserts, Function.iterate_one,
        Nat.add_zero, Nat.zero_add]
  | succ m ih =>
      intro i s
      rw [loopE_succ, stepE_ok P f0 _ hf]
      obtain ⟨r, hr⟩ := hins (stepOk P f0 { s with itnum := i })
      simp only [hr]
      rw [ih (i + 1)]
      simp only [stepOk_set_itnum, stepOk_inserts, stepOk_iterate_set,
        ← Function.iterate_succ_apply, Prod.mk.injEq, State.mk.injEq, and_true,
        true_and]
      omega

lemma stepOk_maxiter (P : Problem X Z) (f0 : Functional X) (m : ℕ) :
    stepOk { P with maxiter := m } f0 = stepOk P f0 := rfl

lemma itstatApply_maxiter (P : Problem X Z) (m : ℕ) (t : State X Z) :
    itstatApply nrmX nrmZ { P with maxiter := m } t = itstatApply nrmX nrmZ P t := by
  cases hP : P.itstatChoice <;>
    simp [itstatApply, hP, itstatFuncEval, itstatFuncNoEval, objectiveE,
      fContrib, norm_primal_residual, norm_dual_residual, lookupAttr]

lemma solveE_ok (P : Problem X Z) (f0 : Functional X) (s : State X Z)
    (hf : P.f = some f0)
    (hins : ∀ t, ∃ r, itstatApply nrmX nrmZ P t = .ok r)
    (hm : 1 ≤ P.maxiter) :
    solveE nrmX nrmZ P s
      = ({ (stepOk P f0)^[P.maxiter] s with
            itnum := s.itnum + P.maxiter, inserts := s.inserts + P.maxiter }, none) := by
  obtain ⟨k, hk⟩ : ∃ k, P.maxiter = k + 1 := ⟨P.maxiter - 1, by omega⟩
  unfold solveE
  rw [hk, loopE_ok nrmX nrmZ P f0 hf hins k s.itnum s]
  simp only [Prod.mk.injEq, State.mk.injEq, and_true, true_and]
  omega

end Lemmas

/-- C1: for every solver state, one `step()` call performs exactly the
specified update sequence — with `r = C(x) - z + u` and
`p = x - (mu/nu)·Cᵗ(r)`, the new `x` is `prox_{mu f}(p)` warm-started from
the old `x`; `z_old` receives the pre-update `z`; `Cx = C(x)` is recomputed
at the new `x`; the new `z` is `prox_{nu g}(Cx + u)` warm-started from the
old `z`; the new `u` is `u + Cx - z`; and neither the iteration counter nor
the diagnostics history is touched. -/
theorem step_update_sequence {X Z : Type} [AddCommGroup X] [Module ℚ X]
    [AddCommGroup Z] [Module ℚ Z]
    (P : Problem X Z) (f0 : Functional X) (s : State X Z)
    (hf : P.f = some f0) :
    stepE P s =
      (let r := P.C.app s.x - s.z + s.u
       let p := s.x - (P.mu / P.nu) • P.C.adj r
       let x1 := f0.prox p P.mu s.x
       let Cx := P.C.app x1
       let z1 := P.g.prox (Cx + s.u) P.nu s.z
       Except.ok { x := x1, z := z1, z_old := s.z, u := s.u + Cx - z1,
                   itnum := s.itnum, inserts := s.inserts }) := by
  rw [stepE_ok P f0 s hf]; rfl

/-- Witness for C1 at the concrete solver `PW` in state `sW`. -/
theorem step_update_sequence_witness :
    stepE PW sW =
      (let r := PW.C.app sW.x - sW.z + sW.u
       let p := sW.x - (PW.mu / PW.nu) • PW.C.adj r
       let x1 := zeroFnQ.prox p PW.mu sW.x
       let Cx := PW.C.app x1
       let z1 := PW.g.prox (Cx + sW.u) PW.nu sW.z
       Except.ok { x := x1, z := z1, z_old := sW.z, u := sW.u + Cx - z1,
                   itnum := sW.itnum, inserts := sW.inserts }) :=
  step_update_sequence PW zeroFnQ sW rfl

/-- C4: `objective(x, z)` raises exactly when one of `x`, `z` is supplied
(the raise is a `ValueError`, the spec's `InvalidArgument`), and when both
or neither are supplied it returns `f(x) + g(z)` at the given (or current)
point, `f` contributing `0` when absent. -/
theorem objective_both_or_neither {X Z : Type} [AddCommGroup X] [Module ℚ X]
    [AddCommGroup Z] [Module ℚ Z]
    (P : Problem X Z) (s : State X Z) (x? : Option X) (z? : Option Z) :
    ((∃ e, objectiveE P s x? z? = .error e) ↔ x?.isSome ≠ z?.isSome)
    ∧ (x?.isSome = z?.isSome →
        objectiveE P s x? z? =
          .ok (fContrib P (x?.getD s.x) + P.g.eval (z?.getD s.z))) := by
  cases x? <;> cases z? <;> simp [objectiveE]

/-- Witness for C4: supplying only `x` raises; supplying both evaluates. -/
theorem objective_both_or_neither_witness :
    objectiveE P2 s2 (some 1) none = .error .valueError
    ∧ objectiveE P2 s2 (some 1) (some 2) =
        .ok (fContrib P2 1 + P2.g.eval 2) :=
  ⟨rfl, (objective_both_or_neither P2 s2 (some 1) (some 2)).2 rfl⟩

/-- C8: immediately after every `step()`, `z_old` holds exactly the value
`z` had before the call, and at construction `z_old` is initialized to a
copy of `z` (the source takes value copies at both sites, lines 271 and
314, so the two are never the same object). -/
theorem z_old_snapshot {X Z : Type} [AddCommGroup X] [Module ℚ X]
    [AddCommGroup Z] [Module ℚ Z]
    (P : Problem X Z) (f0 : Functional X) (s : State X Z)
    (hf : P.f = some f0) :
    stepE P s = .ok (stepOk P f0 s)
    ∧ (stepOk P f0 s).z_old = s.z
    ∧ ∀ (f' : Option (Functional X)) (g' : Functional Z) (C' : LinOp X Z)
        (mu' nu' : ℚ) (x0' : Option X) (m' : ℕ)
        (it' : Option (ℚ → Except PyErr (List ℚ))),
        (init f' g' C' mu' nu' x0' m' it').2.z_old =
          (init f' g' C' mu' nu' x0' m' it').2.z :=
  ⟨stepE_ok P f0 s hf, rfl, fun _ _ _ _ _ _ _ _ => rfl⟩

/-- Witness for C8 at the concrete solver `PW` in state `sW`. -/
theorem z_old_snapshot_witness :
    stepE PW sW = .ok (stepOk PW zeroFnQ sW)
    ∧ (stepOk PW zeroFnQ sW).z_old = sW.z :=
  ⟨(z_old_snapshot PW zeroFnQ sW rfl).1, (z_old_snapshot PW zeroFnQ sW rfl).2.1⟩

/-- C2 (code bug): `norm_primal_residual` computes the residual at the
current iterate `self.x` regardless of its argument (ladmm.py line 242 uses
`self.x` after line 240 bound the defaulted argument to the local `x`).
At the concrete solver `P2` in state `s2` (where `C(x) = z`), the call with
argument `1` returns `0`, while the Euclidean norm of `C(1) - z` — the
value the claim and the function's own docstring promise — is `1`. -/
theorem norm_primal_residual_ignores_argument :
    norm_primal_residual absNorm P2 s2 (some 1) = 0
    ∧ absNorm (P2.C.app 1 - s2.z) = 1 := by
  constructor
  · norm_num [norm_primal_residual, absNorm, P2, s2, idOpQ]
  · norm_num [absNorm, P2, s2, idOpQ]

/-- C3 (counterexample): construction with `mu = -1 ≤ 0` and `nu = -1 ≤ 0`
succeeds — `__init__` contains no validation and no raise statement — and
yields a solver object storing the non-positive parameters as given. -/
theorem init_accepts_nonpositive_parameters :
    (init (some zeroFnQ) zeroFnQ idOpQ (-1) (-1) (some 1) 100 none).1.mu = -1
    ∧ (init (some zeroFnQ) zeroFnQ idOpQ (-1) (-1) (some 1) 100 none).1.nu = -1
    ∧ (init (some zeroFnQ) zeroFnQ idOpQ (-1) (-1) (some 1) 100 none).2.x = 1 :=
  ⟨rfl, rfl, rfl⟩

/-- C3 (amended): construction always succeeds, for every `mu`, `nu`
(non-positive included), `x0` and `maxiter`: the parameters are stored as
given with no validation, `x` is set to `x0` (default `0`), `z` and `z_old`
to `C(x)`, `u` to `0`, and the counters to `0`. -/
theorem init_unvalidated {X Z : Type} [AddCommGroup X] [Module ℚ X]
    [AddCommGroup Z] [Module ℚ Z]
    (f : Option (Functional X)) (g : Functional Z) (C : LinOp X Z)
    (mu nu : ℚ) (x0 : Option X) (m : ℕ)
    (it : Option (ℚ → Except PyErr (List ℚ))) :
    (init f g C mu nu x0 m it).1.mu = mu
    ∧ (init f g C mu nu x0 m it).1.nu = nu
    ∧ (init f g C mu nu x0 m it).1.maxiter = m
    ∧ (init f g C mu nu x0 m it).1.f = f
    ∧ (init f g C mu nu x0 m it).2.x = x0.getD 0
    ∧ (init f g C mu nu x0 m it).2.z = C.app (x0.getD 0)
    ∧ (init f g C mu nu x0 m it).2.z_old = C.app (x0.getD 0)
    ∧ (init f g C mu nu x0 m it).2.u = 0
    ∧ (init f g C mu nu x0 m it).2.itnum = 0
    ∧ (init f g C mu nu x0 m it).2.inserts = 0 :=
  ⟨rfl, rfl, rfl, rfl, rfl, rfl, rfl, rfl, rfl, rfl⟩

/-- C5 (counterexample): for the solver `P5` constructed with `f` absent,
`objective()` does treat `f` as zero, but `step()` does not behave as an
identity prox on `p` — it raises `AttributeError` (line 312 evaluates
`self.f.prox` unconditionally), so not all solver operations succeed. -/
theorem absent_f_step_raises :
    stepE P5 s2 = .error .attributeError
    ∧ (stepE P5 s2).isOk = false
    ∧ objectiveE P5 s2 none none = .ok 0 :=
  ⟨rfl, rfl, by simp [objectiveE, fContrib, P5, s2, zeroFnQ]⟩

/-- C5 (amended): with `f` absent, `objective()` returns `g(z)` alone
(`f` contributes zero there), but `step()` fails with `AttributeError`
instead of applying an identity prox, so solver operations that reach the
`x`-update do not succeed. -/
theorem absent_f_behavior {X Z : Type} [AddCommGroup X] [Module ℚ X]
    [AddCommGroup Z] [Module ℚ Z]
    (P : Problem X Z) (s : State X Z) (hf : P.f = none) :
    objectiveE P s none none = .ok (P.g.eval s.z)
    ∧ stepE P s = .error .attributeError := by
  constructor
  · simp [objectiveE, fContrib, hf]
  · simp [stepE, hf]

/-- Witness for C5 (amended) at the concrete solver `P5` in state `s2`. -/
theorem absent_f_behavior_witness :
    objectiveE P5 s2 none none = .ok (P5.g.eval s2.z)
    ∧ stepE P5 s2 = .error .attributeError :=
  absent_f_behavior P5 s2 rfl

/-- C6: when a `solve()` call runs to completion (every `step()` and every
diagnostics insertion succeeds), it advances `itnum` by exactly
`maxiter ≥ 1` from any starting counter value, never resetting it; the
iterates are exactly `maxiter` applications of the step update, the
diagnostics history grows by exactly one record per iteration, and the
returned value is the final primal iterate `x`. -/
theorem solve_budget {X Z : Type} [AddCommGroup X] [Module ℚ X]
    [AddCommGroup Z] [Module ℚ Z] (nrmX : X → ℚ) (nrmZ : Z → ℚ)
    (P : Problem X Z) (f0 : Functional X) (s : State X Z)
    (hf : P.f = some f0)
    (hins : ∀ t, ∃ r, itstatApply nrmX nrmZ P t = .ok r)
    (hm : 1 ≤ P.maxiter) :
    solveE nrmX nrmZ P s
      = ({ (stepOk P f0)^[P.maxiter] s with
            itnum := s.itnum + P.maxiter, inserts := s.inserts + P.maxiter },
         none)
    ∧ solveResult nrmX nrmZ P s = some (((stepOk P f0)^[P.maxiter] s).x) := by
  have h := solveE_ok nrmX nrmZ P f0 s hf hins hm
  refine ⟨h, ?_⟩
  unfold solveResult
  rw [h]

/-- Witness for C6 at the concrete solver `PW` in state `sW` with budget 2. -/
theorem solve_budget_witness :
    solveE absNorm absNorm PW sW
      = ({ (stepOk PW zeroFnQ)^[PW.maxiter] sW with
            itnum := sW.itnum + PW.maxiter, inserts := sW.inserts + PW.maxiter },
         none)
    ∧ solveResult absNorm absNorm PW sW =
        some (((stepOk PW zeroFnQ)^[PW.maxiter] sW).x) :=
  solve_budget absNorm absNorm PW zeroFnQ sW rfl (fun _ => ⟨[], rfl⟩) (by decide)

/-- C7: with deterministic collaborators (and every iteration succeeding),
running `solve()` with budget `m1` and then with budget `m2` leaves the
solver in exactly the state — iterates, counter and diagnostics length —
that a single `solve()` with budget `m1 + m2` produces from the same
initial state. -/
theorem solve_resumable {X Z : Type} [AddCommGroup X] [Module ℚ X]
    [AddCommGroup Z] [Module ℚ Z] (nrmX : X → ℚ) (nrmZ : Z → ℚ)
    (P : Problem X Z) (f0 : Functional X) (s : State X Z) (m1 m2 : ℕ)
    (hf : P.f = some f0)
    (hins : ∀ t, ∃ r, itstatApply nrmX nrmZ P t = .ok r)
    (hm1 : 1 ≤ m1) (hm2 : 1 ≤ m2) :
    solveE nrmX nrmZ { P with maxiter := m2 }
        (solveE nrmX nrmZ { P with maxiter := m1 } s).1
      = solveE nrmX nrmZ { P with maxiter := m1 + m2 } s := by
  have hf1 : ({ P with maxiter := m1 } : Problem X Z).f = some f0 := hf
  have hf2 : ({ P with maxiter := m2 } : Problem X Z).f = some f0 := hf
  have hf3 : ({ P with maxiter := m1 + m2 } : Problem X Z).f = some f0 := hf
  have hins1 : ∀ t, ∃ r,
      itstatApply nrmX nrmZ { P with maxiter := m1 } t = .ok r := by
    intro t; rw [itstatApply_maxiter]; exact hins t
  have hins2 : ∀ t, ∃ r,
      itstatApply nrmX nrmZ { P with maxiter := m2 } t = .ok r := by
    intro t; rw [itstatApply_maxiter]; exact hins t
  have hins3 : ∀ t, ∃ r,
      itstatApply nrmX nrmZ { P with maxiter := m1 + m2 } t = .ok r := by
    intro t; rw [itstatApply_maxiter]; exact hins t
  rw [solveE_ok nrmX nrmZ { P with maxiter := m1 } f0 s hf1 hins1 hm1]
  rw [solveE_ok nrmX nrmZ { P with maxiter := m2 } f0 _ hf2 hins2 hm2]
  rw [solveE_ok nrmX nrmZ { P with maxiter := m1 + m2 } f0 s hf3 hins3
    (show 1 ≤ m1 + m2 by omega)]
  simp only [stepOk_maxiter, stepOk_iterate_set]
  rw [← Function.iterate_add_apply, Nat.add_comm m2 m1]
  simp only [Prod.mk.injEq, State.mk.injEq, and_true, true_and]
  omega

/-- Witness for C7 at the concrete solver `PW` in state `sW`,
with budgets 1 and 1 against a single run of budget 2. -/
theorem solve_resumable_witness :
    solveE absNorm absNorm { PW with maxiter := 1 }
        (solveE absNorm absNorm { PW with maxiter := 1 } sW).1
      = solveE absNorm absNorm { PW with maxiter := 1 + 1 } sW :=
  solve_resumable absNorm absNorm PW zeroFnQ sW 1 1 rfl (fun _ => ⟨[], rfl⟩)
    (by decide) (by decide)

/-- C10: for a solver built with the default diagnostics (`itstat = None`)
and a `g` lacking `has_eval`, the selected extraction closure reads the
attribute `i`, which no solver instance possesses (it is not among the
attributes `__init__` binds); consequently the first iteration of every
`solve()` call fails with `AttributeError` at the diagnostics insertion,
after `step()` has already mutated the state (the final state is the
stepped one), and `solve()` returns nothing. -/
theorem default_noeval_itstat_fails {X Z : Type} [AddCommGroup X] [Module ℚ X]
    [AddCommGroup Z] [Module ℚ Z] (nrmX : X → ℚ) (nrmZ : Z → ℚ)
    (P : Problem X Z) (f0 : Functional X) (s : State X Z)
    (hf : P.f = some f0) (hg : P.g.has_eval = false)
    (hsel : P.itstatChoice = selectItstat P.g none)
    (hm : 1 ≤ P.maxiter) :
    solverAttrNames.contains "i" = false
    ∧ lookupAttr P s "i" = none
    ∧ solveE nrmX nrmZ P s = (stepOk P f0 s, some .attributeError)
    ∧ solveResult nrmX nrmZ P s = none := by
  have hch : P.itstatChoice = ItstatChoice.defaultNoEval := by
    rw [hsel]; simp [selectItstat, hg]
  have hlook : lookupAttr P s "i" = none := rfl
  have happ : ∀ t : State X Z,
      itstatApply nrmX nrmZ P t = .error .attributeError := by
    intro t
    unfold itstatApply
    rw [hch]
    show itstatFuncNoEval nrmX nrmZ P t = .error .attributeError
    unfold itstatFuncNoEval
    rw [show lookupAttr P t "i" = none from rfl]
  obtain ⟨k, hk⟩ : ∃ k, P.maxiter = k + 1 := ⟨P.maxiter - 1, by omega⟩
  have hsolve : solveE nrmX nrmZ P s = (stepOk P f0 s, some .attributeError) := by
    unfold solveE
    rw [hk, loopE_succ, stepE_ok P f0 _ hf]
    simp only [happ]
  refine ⟨by decide, hlook, hsolve, ?_⟩
  unfold solveResult
  rw [hsolve]

/-- Witness for C10 at the concrete solver `P10` in state `s2`. -/
theorem default_noeval_itstat_fails_witness :
    solverAttrNames.contains "i" = false
    ∧ lookupAttr P10 s2 "i" = none
    ∧ solveE absNorm absNorm P10 s2 = (stepOk P10 zeroFnQ s2, some .attributeError)
    ∧ solveResult absNorm absNorm P10 s2 = none :=
  default_noeval_itstat_fails absNorm absNorm P10 zeroFnQ s2 rfl rfl rfl
    (by decide)

/-- The end-to-end scenario's initial state, written out: `x0 = (-1, 2)`,
`z = z_old = C(x0) = (-1, 2)`, `u = 0`. -/
theorem s9_eq :
    s9 = { x := (-1, 2), z := (-1, 2), z_old := (-1, 2), u := 0,
           itnum := 0, inserts := 0 } := rfl

/-- First step of the end-to-end scenario: the `x`-update applies the zero
functional's prox (the identity) to `p = x - (mu/nu)·Cᵗ(Cx - z + u) =
(-1, 2)`, so `x` stays `(-1, 2)`; the clamp acts only on `z`. -/
theorem scenario9_step1 :
    stepOk P9 zeroFn2 s9 =
      { x := (-1, 2), z := (0, 2), z_old := (-1, 2), u := (-1, 0),
        itnum := 0, inserts := 0 } := by
  rw [s9_eq]
  simp only [stepOk, P9, scenario9, init, selectItstat, zeroFn2, nonnegInd2,
    idOp2, z_init, u_init]
  norm_num [Prod.ext_iff, max_def]

/-- Second step of the end-to-end scenario: now `p = (-1,2) - (1/2)·(-2,0)
= (0, 2)`, so `x` becomes `(0, 2)`. -/
theorem scenario9_step2 :
    stepOk P9 zeroFn2
        { x := (-1, 2), z := (0, 2), z_old := (-1, 2), u := (-1, 0),
          itnum := 0, inserts := 0 } =
      { x := (0, 2), z := (0, 2), z_old := (0, 2), u := (-1, 0),
        itnum := 0, inserts := 0 } := by
  simp only [stepOk, P9, scenario9, init, selectItstat, zeroFn2, nonnegInd2,
    idOp2, z_init, u_init]
  norm_num [Prod.ext_iff, max_def]

/-- C9 (counterexample): in the end-to-end scenario (`C` = 2×2 identity,
`f` = zero functional, `g` = non-negative-orthant indicator, `mu = 0.5`,
`nu = 1`, `x0 = [-1, 2]`), after exactly 1 iteration of `step()` the primal
iterate is still `[-1, 2]` — the zero functional's prox is the identity, so
the clamp never touches `x` in the first iteration — and `[-1, 2]` is not
within tolerance `1e-9` of the claimed `[0, 2]`. -/
theorem scenario9_one_step_not_clamped :
    stepE P9 s9 = .ok (stepOk P9 zeroFn2 s9)
    ∧ (stepOk P9 zeroFn2 s9).x = (-1, 2)
    ∧ ¬(|(stepOk P9 zeroFn2 s9).x.1 - 0| ≤ 1 / 1000000000
        ∧ |(stepOk P9 zeroFn2 s9).x.2 - 2| ≤ 1 / 1000000000) := by
  refine ⟨rfl, ?_, ?_⟩
  · rw [scenario9_step1]
  · rw [scenario9_step1]
    norm_num

/-- C9 (amended): in the same scenario the clamped iterate arrives one
iteration later: after exactly 2 iterations of `step()` the primal iterate
equals `[0, 2]` exactly (hence within tolerance `1e-9`). -/
theorem scenario9_two_steps_clamped :
    stepE P9 s9 = .ok (stepOk P9 zeroFn2 s9)
    ∧ stepE P9 (stepOk P9 zeroFn2 s9) =
        .ok (stepOk P9 zeroFn2 (stepOk P9 zeroFn2 s9))
    ∧ (stepOk P9 zeroFn2 (stepOk P9 zeroFn2 s9)).x = (0, 2) := by
  refine ⟨rfl, rfl, ?_⟩
  rw [scenario9_step1, scenario9_step2]

end LADMM
